import Mathlib

/-!
Verification of the queue/worker/circuit-breaker/idempotency core of the
verichain backend (Node.js).  Each definition below is a shallow embedding of
one source function, translated directly from the JavaScript:

* `CircuitBreakerFactory` — `src/middleware/circuitBreaker.js`
* `PaseoService.registerCertificate` — `src/services/blockchain/PaseoService.js`
* `BlockchainWorker.processRegisterCertificate` — the
  `queue.process('register-certificate', ...)` handler in
  `src/workers/blockchainWorker.js`
* `QueueManager` (`init`, `calculateQueueHealth`, queue definitions) —
  `src/queues/queueConfig-fixed.js`
* `IdempotencyMiddleware.check` — `src/middleware/idempotency.js`

External effects (Redis, Supabase, the Paseo RPC endpoint, opossum's timers)
are made explicit: stores are association lists threaded through the
functions, clock readings are `Nat` parameters, and the outcome of the one
protected external call is an explicit `ChainOutcome` parameter.  Fallible
code returns `Except`; a JavaScript exception is an `Except.error` value.
-/

namespace Verichain

/-- A row of the `certificates` table, restricted to the columns the worker
and the blockchain service read or write. `metadata` is the JSONB map, kept
as an association list of string pairs. -/
structure Certificate where
  id : String
  recipient : String := ""
  recipientEmail : String := ""
  issuer : String := ""
  course : String := ""
  issueDate : String := ""
  contentHash : String := ""
  student_email : String := ""
  tx_hash : Option String := none
  block_number : Option Nat := none
  blockchain_status : Option String := none
  metadata : List (String × String) := []
deriving Repr, DecidableEq

/-- The structured result object produced by
`PaseoService.registerCertificate` and `_registerCertificateInternal`. -/
structure BCResult where
  success : Bool
  txHash : Option String
  blockHash : Option String
  blockNumber : Option Nat
  network : String
  status : String
  message : String
  errorMessage : Option String := none
deriving Repr, DecidableEq

/-- The JSON payload handed to `api.tx.system.remark` by
`_registerCertificateInternal` (its fields, in source order). -/
structure RemarkPayload where
  type : String
  id : String
  recipient : String
  recipientEmail : String
  issuer : String
  course : String
  issueDate : String
  timestamp : Nat
  contentHash : String
deriving Repr, DecidableEq

/-- Payload construction in `_registerCertificateInternal`
(`JSON.stringify` argument), `ts` standing for `Date.now()`. -/
def buildRemarkPayload (c : Certificate) (ts : Nat) : RemarkPayload :=
  { type := "VERICHAIN_CERTIFICATE"
    id := c.id
    recipient := c.recipient
    recipientEmail := c.recipientEmail
    issuer := c.issuer
    course := c.course
    issueDate := c.issueDate
    timestamp := ts
    contentHash := c.contentHash }

/-- State of `CircuitBreakerFactory.breakers` (a `Map` from breaker name to
the opossum breaker created for it).  The only per-breaker datum the claims
depend on is the action closure the breaker was constructed with, so a
breaker is represented by the value its action closure captured; the type of
that capture is the parameter `F`. -/
structure CBFactory (F : Type) where
  breakers : List (String × F)
deriving Repr, DecidableEq

/-- Initial factory state: the static `breakers` map starts empty. -/
def CBFactory.empty (F : Type) : CBFactory F := { breakers := [] }

/-- `CircuitBreakerFactory.getBreaker(name, fn, options)`: when a breaker
with this name already exists it is returned unchanged (the `fn` argument is
ignored); otherwise a breaker holding `fn` is stored and returned. -/
def CBFactory.getBreaker {F : Type} (s : CBFactory F) (name : String) (fn : F) :
    CBFactory F × F :=
  match s.breakers.lookup name with
  | some existing => (s, existing)
  | none => ({ breakers := s.breakers ++ [(name, fn)] }, fn)

/-- Outcome of the one protected external operation (signing and submitting
the remark transaction): either a transaction hash and best-effort block
number, or a rejection (network error, init failure or timeout). -/
inductive ChainOutcome
  | success (txHex : String) (blockNumber : Option Nat)
  | failure (message : String)
deriving Repr, DecidableEq

/-- The result `_registerCertificateInternal` resolves with on success. -/
def internalSuccessResult (txHex : String) (bn : Option Nat) : BCResult :=
  { success := true
    txHash := some txHex
    blockHash := some txHex
    blockNumber := bn
    network := "paseo"
    status := "confirmed"
    message := "Certificate successfully registered on blockchain" }

/-- The fallback registered by `registerCertificate` via `breaker.fallback`,
capturing the certificate of the current call; `now` stands for
`Date.now()`. -/
def fallbackResult (c : Certificate) (now : Nat) : BCResult :=
  { success := true
    txHash := some ("pending_" ++ toString now ++ "_" ++ c.id)
    blockHash := none
    blockNumber := none
    network := "paseo"
    status := "queued"
    message := "Certificate queued for blockchain registration when service is available" }

/-- The object returned from the `catch` branch of `registerCertificate`
when `breaker.fire()` rejects. -/
def failedResult (e : String) : BCResult :=
  { success := false
    txHash := none
    blockHash := none
    blockNumber := none
    network := "paseo"
    status := "failed"
    message := "Blockchain service temporarily unavailable"
    errorMessage := some e }

/-- Result of `breaker.fire()`: the promise outcome plus whether the
protected action was actually invoked. -/
structure FireOutput where
  result : Except String BCResult
  ranAction : Bool
deriving Repr

/-- Opossum `fire()` semantics for a breaker with an optional fallback: with
the circuit open the action is not invoked and the fallback (if registered)
supplies the resolution; with the circuit closed the action runs, and on
rejection the fallback (if registered) supplies the resolution. -/
def fireBreaker (circuitOpen : Bool) (run : ChainOutcome)
    (fallback : Option BCResult) : FireOutput :=
  if circuitOpen then
    match fallback with
    | some r => { result := .ok r, ranAction := false }
    | none => { result := .error "Breaker is open", ranAction := false }
  else
    match run with
    | .success txHex bn =>
        { result := .ok (internalSuccessResult txHex bn), ranAction := true }
    | .failure msg =>
        match fallback with
        | some r => { result := .ok r, ranAction := true }
        | none => { result := .error msg, ranAction := true }

/-- Everything observable about one `PaseoService.registerCertificate` call:
the new factory state, the returned result object, the certificate the
protected action closure actually ran on (`none` when the dependency was not
invoked), and the remark payload submitted to the chain (`none` when no
remark reached the chain). -/
structure RegisterOutput where
  state : CBFactory Certificate
  result : BCResult
  actionCert : Option Certificate
  submitted : Option RemarkPayload
deriving Repr, DecidableEq

namespace PaseoService

/-- `PaseoService.registerCertificate(certificateData)`.  It asks the factory
for the breaker named `blockchain` passing a fresh action closure capturing
`certificateData` (the factory returns the cached breaker, with its original
closure, if one exists), re-registers the fallback (which does capture the
current `certificateData`), fires the breaker, and converts a rejection into
the `failed` result object instead of re-throwing.  `circuitOpen` is the
breaker's state at fire time, `chain` the behaviour of the remark submission,
and `now` the `Date.now()` reading. -/
def registerCertificate (st : CBFactory Certificate) (certificateData : Certificate)
    (circuitOpen : Bool) (chain : ChainOutcome) (now : Nat) : RegisterOutput :=
  let gb := st.getBreaker "blockchain" certificateData
  let fo := fireBreaker circuitOpen chain (some (fallbackResult certificateData now))
  { state := gb.1
    result :=
      match fo.result with
      | .ok r => r
      | .error e => failedResult e
    actionCert := if fo.ranAction then some gb.2 else none
    submitted :=
      if circuitOpen then none
      else
        match chain with
        | .success _ _ => some (buildRemarkPayload gb.2 now)
        | .failure _ => none }

end PaseoService

/-- Two successive `registerCertificate` calls in one process, starting from
the empty factory of process start. -/
def registerTwice (c1 c2 : Certificate) (circuitOpen : Bool) (chain : ChainOutcome)
    (t1 t2 : Nat) : RegisterOutput × RegisterOutput :=
  let o1 := PaseoService.registerCertificate (CBFactory.empty Certificate) c1
    circuitOpen chain t1
  (o1, PaseoService.registerCertificate o1.state c2 circuitOpen chain t2)

/-- Concrete certificates for the two-call scenario. -/
def certA : Certificate :=
  { id := "cert-A", recipient := "Alice", student_email := "alice@example.com" }

def certB : Certificate :=
  { id := "cert-B", recipient := "Bob", student_email := "bob@example.com" }

/-! The blockchain worker: the `queue.process('register-certificate', ...)`
handler of `src/workers/blockchainWorker.js`, and the Bull retry loop that
drives it. -/

/-- A JavaScript exception: either an `Error` thrown with a message, or the
`ReferenceError` raised when an undeclared binding is evaluated. -/
inductive JSError
  | thrown (message : String)
  | referenceError (identifier : String)
deriving Repr, DecidableEq

/-- The values the handler returns: the `already_registered` short-circuit
object and the final `success` object. -/
inductive JobResult
  | alreadyRegistered (tx_hash : String)
  | success (certificateId : String) (txHash : Option String) (blockNumber : Option Nat)
deriving Repr, DecidableEq

/-- The payload enqueued into the `emailNotifications` queue on the success
path.  `toAddr` is the payload's `to` key (a reserved word here). -/
structure EmailJob where
  type : String
  toAddr : String
  certificateId : String
  txHash : Option String
deriving Repr, DecidableEq

/-- The certificates table, keyed by certificate id. -/
abbrev CertStore := List (String × Certificate)

/-- Supabase `update(...).eq('id', id)`: replace every row whose key equals
`id`. -/
def updateCert (store : CertStore) (id : String) (c : Certificate) : CertStore :=
  (store : List (String × Certificate)).map fun p => if p.1 = id then (p.1, c) else p

/-- JSON object spread: set key `k` to `v`, overwriting an existing entry. -/
def metaSet (m : List (String × String)) (k v : String) : List (String × String) :=
  m.filter (fun p => decide (p.1 ≠ k)) ++ [(k, v)]

/-- Everything one handler execution produces: the promise outcome, the
certificates table and email queue afterwards, and whether
`paseoService.registerCertificate` was invoked. -/
structure HandlerOutput where
  result : Except JSError JobResult
  store : CertStore
  emails : List EmailJob
  registerCalled : Bool

namespace BlockchainWorker

/-- The `queue.process('register-certificate', ...)` handler.  `register` is
the behaviour of `paseoService.registerCertificate` for this execution (an
`Except.error` models a rejected promise), `nowIso` the
`new Date().toISOString()` reading.

Two aspects come straight from the source text: the `catch` block evaluates
`cert?.metadata`, but `cert` is a `const` scoped to the `try` block, so the
`catch` block raises `ReferenceError: cert is not defined` before its
`blockchain_status: 'failed'` update can be issued; and the success branch
runs for every fulfilled `register` result, whatever its `status` field
says. -/
def processRegisterCertificate (store : CertStore) (emails : List EmailJob)
    (certificateId : String) (retryCount : Nat)
    (register : Certificate → Except String BCResult)
    (nowIso : String) : HandlerOutput :=
  match (store : List (String × Certificate)).lookup certificateId with
  | none =>
      { result := .error (.referenceError "cert")
        store := store
        emails := emails
        registerCalled := false }
  | some cert =>
      match cert.tx_hash with
      | some h =>
          { result := .ok (.alreadyRegistered h)
            store := store
            emails := emails
            registerCalled := false }
      | none =>
          match register cert with
          | .ok r =>
              let updated : Certificate :=
                { cert with
                  tx_hash := r.txHash
                  block_number := r.blockNumber
                  blockchain_status := some "confirmed"
                  metadata :=
                    metaSet
                      (metaSet cert.metadata "blockchain_registered_at" nowIso)
                      "retry_count" (toString retryCount) }
              { result := .ok (.success certificateId r.txHash r.blockNumber)
                store := updateCert store certificateId updated
                emails := emails ++
                  [{ type := "certificate_registered"
                     toAddr := cert.student_email
                     certificateId := certificateId
                     txHash := r.txHash }]
                registerCalled := true }
          | .error _ =>
              { result := .error (.referenceError "cert")
                store := store
                emails := emails
                registerCalled := true }

end BlockchainWorker

/-- Final observation of one Bull job: terminal state, `attemptsMade`, and
how many times the handler was executed. -/
structure JobRunResult where
  finalState : String
  attemptsMade : Nat
  executions : Nat
  store : CertStore
  emails : List EmailJob
deriving Repr, DecidableEq

/-- Bull's retry loop for a `register-certificate` job: run the handler; a
fulfilled promise completes the job, a rejected promise counts the attempt
and retries while attempts remain, after which the job lands in the failed
set.  Side effects performed by earlier attempts persist. -/
def bullRun (remaining made : Nat) (store : CertStore) (emails : List EmailJob)
    (certificateId : String) (retryCount : Nat)
    (register : Certificate → Except String BCResult) (nowIso : String) : JobRunResult :=
  match remaining with
  | 0 =>
      { finalState := "failed", attemptsMade := made, executions := made
        store := store, emails := emails }
  | r + 1 =>
      let o := BlockchainWorker.processRegisterCertificate store emails certificateId
        retryCount register nowIso
      match o.result with
      | .ok _ =>
          { finalState := "completed", attemptsMade := made + 1, executions := made + 1
            store := o.store, emails := o.emails }
      | .error _ =>
          bullRun r (made + 1) o.store o.emails certificateId retryCount register nowIso

/-- Process a job with the queue's configured attempt cap, starting from
zero attempts made. -/
def bullProcess (maxAttempts : Nat) (store : CertStore) (emails : List EmailJob)
    (certificateId : String) (retryCount : Nat)
    (register : Certificate → Except String BCResult) (nowIso : String) : JobRunResult :=
  bullRun maxAttempts 0 store emails certificateId retryCount register nowIso

instance {ε α : Type} [DecidableEq ε] [DecidableEq α] : DecidableEq (Except ε α)
  | .ok x, .ok y => decidable_of_iff (x = y) ⟨fun h => h ▸ rfl, Except.ok.inj⟩
  | .error x, .error y => decidable_of_iff (x = y) ⟨fun h => h ▸ rfl, Except.error.inj⟩
  | .ok _, .error _ => .isFalse fun h => Except.noConfusion h
  | .error _, .ok _ => .isFalse fun h => Except.noConfusion h

/-! The queue manager of `src/queues/queueConfig-fixed.js`. -/

/-- A Bull retention setting: a kept-count, `true` (remove all) or `false`
(keep all). -/
inductive Retention
  | keepLast (n : Nat)
  | removeAll
  | keepAll
deriving Repr, DecidableEq

/-- One entry of `queueDefinitions` in `QueueManager.init`: the Bull queue
name and its `defaultJobOptions`. -/
structure QueueDefinition where
  name : String
  attempts : Nat
  backoffType : Option String := none
  backoffDelay : Option Nat := none
  jobTimeout : Option Nat := none
  removeOnComplete : Option Retention := none
  removeOnFail : Option Retention := none
deriving Repr, DecidableEq

/-- The `blockchainRegistration` queue definition (attempts 3, exponential
backoff with 5000 ms base delay, 60 s timeout). -/
def blockchainRegistrationDef : QueueDefinition :=
  { name := "blockchain-registration"
    attempts := 3
    backoffType := some "exponential"
    backoffDelay := some 5000
    jobTimeout := some 60000
    removeOnComplete := some (.keepLast 100)
    removeOnFail := some (.keepLast 500) }

/-- The five configured queues, in source order. -/
def queueDefinitions : List (String × QueueDefinition) :=
  [("blockchainRegistration", blockchainRegistrationDef),
   ("emailNotifications",
     { name := "email-notifications", attempts := 5, backoffType := some "fixed"
       backoffDelay := some 3000, removeOnComplete := some (.keepLast 50)
       removeOnFail := some (.keepLast 100) }),
   ("certificateGeneration",
     { name := "certificate-generation", attempts := 2, jobTimeout := some 30000
       removeOnComplete := some .removeAll, removeOnFail := some .keepAll }),
   ("pdfGeneration",
     { name := "pdf-generation", attempts := 3, jobTimeout := some 45000
       removeOnComplete := some (.keepLast 20), removeOnFail := some (.keepLast 50) }),
   ("analyticsProcessing",
     { name := "analytics-processing", attempts := 1, jobTimeout := some 120000
       removeOnComplete := some (.keepLast 10), removeOnFail := some .keepAll })]

/-- The mutable fields of a `QueueManager` instance. -/
structure QueueManagerState where
  queues : List (String × QueueDefinition)
  isConnected : Bool
  initialized : Bool
deriving Repr, DecidableEq

/-- The state built by the `QueueManager` constructor. -/
def QueueManagerState.new : QueueManagerState :=
  { queues := [], isConnected := false, initialized := false }

namespace QueueManager

/-- `QueueManager.init()`.  When already initialized it warns and returns.
Otherwise each configured queue is created inside a `try` whose `catch`
merely logs, `queueReady` saying whether `new Bull` plus `isReady()`
succeeds for that registry key; afterwards the manager becomes initialized
when at least one queue is registered and throws when none is. -/
def init (st : QueueManagerState) (queueReady : String → Bool) :
    Except String QueueManagerState :=
  if st.initialized then .ok st
  else
    let queues' := queueDefinitions.foldl
      (fun acc kd => if queueReady kd.1 then acc ++ [kd] else acc) st.queues
    if 0 < queues'.length then
      .ok { queues := queues', isConnected := true, initialized := true }
    else
      .error "Failed to initialize any queues - check Redis connection"

/-- `QueueManager.calculateQueueHealth(failed, completed, waiting)`.  The
JavaScript arithmetic on these non-negative integer counts is exact, so the
failure rate is modelled in `ℚ`. -/
def calculateQueueHealth (failed completed waiting : Nat) : String :=
  if completed = 0 ∧ failed = 0 then
    if waiting > 100 then "overloaded" else "idle"
  else
    let failureRate : ℚ := (failed : ℚ) / ((failed : ℚ) + (completed : ℚ))
    if failureRate > 1 / 2 then "critical"
    else if failureRate > 1 / 5 then "warning"
    else if waiting > 1000 then "busy"
    else "healthy"

end QueueManager

/-! The idempotency guard of `src/middleware/idempotency.js`. -/

/-- The components of the Redis cache key
`idempotency:userId:method:md5(path):clientKey`.  The `md5` of the path is
modelled by the path itself: the claims only need that equal paths give
equal keys. -/
structure IdemKey where
  userId : String
  method : String
  path : String
  clientKey : String
deriving Repr, DecidableEq

/-- A stored idempotency record: the `processing` marker or the cached
`completed` response. -/
inductive IdemRecord
  | processing (timestamp : Nat)
  | completed (statusCode : Nat) (body : String) (timestamp : Nat)
deriving Repr, DecidableEq

/-- The live (non-expired) keys of the shared Redis store; TTL expiry is
modelled by a key's absence. -/
abbrev IdemStore := List (IdemKey × IdemRecord)

/-- Redis `GET`. -/
def storeGet : IdemStore → IdemKey → Option IdemRecord
  | [], _ => none
  | (k', r) :: rest, k => if k' = k then some r else storeGet rest k

/-- Redis `DEL`. -/
def storeDel : IdemStore → IdemKey → IdemStore
  | [], _ => []
  | (k', r) :: rest, k =>
      if k' = k then storeDel rest k else (k', r) :: storeDel rest k

/-- Redis `SETEX` (the TTL argument only bounds the key's lifetime, which the
store models by presence). -/
def storeSet (s : IdemStore) (k : IdemKey) (r : IdemRecord) : IdemStore :=
  (k, r) :: storeDel s k

/-- The state-mutating HTTP verbs the guard applies to. -/
def isMutatingMethod (m : String) : Bool :=
  m == "POST" || m == "PUT" || m == "PATCH" || m == "DELETE"

/-- A character allowed by the key pattern `[a-zA-Z0-9-_]`. -/
def isIdempotencyKeyChar (c : Char) : Bool :=
  c.isAlphanum || c == '-' || c == '_'

/-- The key format check `/^[a-zA-Z0-9-_]{8,64}$/`. -/
def validIdempotencyKey (s : String) : Bool :=
  decide (8 ≤ s.length) && decide (s.length ≤ 64) && s.toList.all isIdempotencyKeyChar

/-- How one middleware invocation disposes of the request: pass through
unguarded (`skip`), reject the malformed key (400), report an in-progress
duplicate (409 with a retry-after hint), replay a cached response, or call
`next()` (`proceed`; `guarded` records whether a `processing` marker was
written and the completion-caching `res.json` wrapper installed). -/
inductive CheckOutcome
  | skip
  | badRequest
  | conflict (retryAfter : Nat)
  | replay (statusCode : Nat) (body : String) (headers : List (String × String))
  | proceed (guarded : Bool)
deriving Repr, DecidableEq

/-- The headers set on the replay path. -/
def replayHeaders (key : String) : List (String × String) :=
  [("X-Idempotent-Replayed", "true"), ("X-Idempotency-Key", key), ("X-Cache-Hit", "true")]

namespace IdempotencyMiddleware

/-- The 300 000 ms processing-marker window. -/
def processingTTLms : Nat := 300000

/-- `IdempotencyMiddleware.check` up to its `next()` call, as a function of
the store contents, the clock, and the request fields that feed the cache
key. -/
def check (store : IdemStore) (now : Nat) (userId method path : String)
    (idempotencyKey : Option String) : CheckOutcome × IdemStore :=
  if isMutatingMethod method then
    match idempotencyKey with
    | none => (.skip, store)
    | some key =>
        if validIdempotencyKey key then
          let k : IdemKey :=
            { userId := userId, method := method, path := path, clientKey := key }
          match storeGet store k with
          | some (.processing ts) =>
              let elapsed := now - ts
              if elapsed > processingTTLms then (.proceed false, storeDel store k)
              else (.conflict ((processingTTLms - elapsed + 999) / 1000), store)
          | some (.completed sc body _) => (.replay sc body (replayHeaders key), store)
          | none => (.proceed true, storeSet store k (.processing now))
        else (.badRequest, store)
  else (.skip, store)

/-- The wrapped `res.json`: on handler completion a sub-500 status stores
the completed record (TTL 86400 s for success, 3600 s for client errors),
while a 5xx deletes the marker. -/
def recordCompletion (store : IdemStore) (k : IdemKey) (now statusCode : Nat)
    (body : String) : IdemStore :=
  if statusCode < 500 then storeSet store k (.completed statusCode body now)
  else storeDel store k

end IdempotencyMiddleware

/-- Observation of a batch of requests: final store, per-request middleware
outcomes, and how many of them executed the route handler. -/
structure SerialRun where
  store : IdemStore
  outcomes : List CheckOutcome
  handlerRuns : Nat
deriving Repr, DecidableEq

/-- `n` identical requests processed one after another, each running to
completion (middleware check, then handler plus response caching when the
check proceeded) before the next starts.  The handler responds with
`handlerStatus`/`handlerBody`. -/
def runSerial (userId method path key : String) (now handlerStatus : Nat)
    (handlerBody : String) : Nat → IdemStore → SerialRun
  | 0, store => { store := store, outcomes := [], handlerRuns := 0 }
  | n + 1, store =>
      let o := IdempotencyMiddleware.check store now userId method path (some key)
      let k : IdemKey :=
        { userId := userId, method := method, path := path, clientKey := key }
      let step : IdemStore × Nat :=
        match o.1 with
        | .proceed true =>
            (IdempotencyMiddleware.recordCompletion o.2 k now handlerStatus handlerBody, 1)
        | .proceed false => (o.2, 1)
        | _ => (o.2, 0)
      let rest := runSerial userId method path key now handlerStatus handlerBody n step.1
      { store := rest.store
        outcomes := o.1 :: rest.outcomes
        handlerRuns := step.2 + rest.handlerRuns }

/-- Where one concurrent request stands between the middleware's awaited
Redis operations.  Each constructor boundary is an `await` in the source:
the `GET`, the `SETEX` of the `processing` marker, and the handler run with
its completion write. -/
inductive ThreadPhase
  | start
  | readAbsent
  | marked
  | unguardedRun
  | finished (executedHandler : Bool)
deriving Repr, DecidableEq

/-- The interleaved execution state of concurrent requests sharing one cache
key: the shared store and each request's phase. -/
structure ConcState where
  store : IdemStore
  threads : List ThreadPhase
deriving Repr, DecidableEq

/-- One atomic Redis operation (or the handler run) of one request, exactly
as `check` sequences them. -/
def threadStep (k : IdemKey) (now handlerStatus : Nat) (handlerBody : String)
    (store : IdemStore) (ph : ThreadPhase) : IdemStore × ThreadPhase :=
  match ph with
  | .start =>
      match storeGet store k with
      | none => (store, .readAbsent)
      | some (.processing ts) =>
          if now - ts > IdempotencyMiddleware.processingTTLms then
            (storeDel store k, .unguardedRun)
          else (store, .finished false)
      | some (.completed _ _ _) => (store, .finished false)
  | .readAbsent => (storeSet store k (.processing now), .marked)
  | .marked =>
      (IdempotencyMiddleware.recordCompletion store k now handlerStatus handlerBody,
        .finished true)
  | .unguardedRun => (store, .finished true)
  | .finished b => (store, .finished b)

/-- Advance the request at index `i` by one atomic operation. -/
def stepThread (k : IdemKey) (now handlerStatus : Nat) (handlerBody : String)
    (s : ConcState) (i : Nat) : ConcState :=
  match s.threads.get? i with
  | none => s
  | some ph =>
      let r := threadStep k now handlerStatus handlerBody s.store ph
      { store := r.1, threads := s.threads.set i r.2 }

/-- Run a schedule: a list of request indices, each entry letting that
request perform its next atomic operation. -/
def runSchedule (k : IdemKey) (now handlerStatus : Nat) (handlerBody : String) :
    List Nat → ConcState → ConcState
  | [], s => s
  | i :: rest, s =>
      runSchedule k now handlerStatus handlerBody rest
        (stepThread k now handlerStatus handlerBody s i)

/-- How many of the requests executed the route handler. -/
def executedCount (s : ConcState) : Nat :=
  s.threads.countP fun ph =>
    match ph with
    | .finished true => true
    | _ => false

/-! Concrete scenarios referenced by the theorems. -/

/-- A fixed `new Date().toISOString()` reading. -/
def isoNow : String := "2025-01-01T00:00:00.000Z"

/-- A certificate that already carries a transaction hash. -/
def certRegistered : Certificate :=
  { id := "cert-B", student_email := "bob@example.com", tx_hash := some "0xdead" }

/-- Worker execution in which the breaker served its fallback: the
registration result is the `queued` object with a synthetic pending hash. -/
def c2RunQueued : HandlerOutput :=
  BlockchainWorker.processRegisterCertificate [("cert-A", certA)] [] "cert-A" 0
    (fun c => .ok (fallbackResult c 1234)) isoNow

/-- Worker execution in which the protected call failed hard: the
registration result is the `failed` object with a `null` hash. -/
def c2RunFailed : HandlerOutput :=
  BlockchainWorker.processRegisterCertificate [("cert-A", certA)] [] "cert-A" 0
    (fun _ => .ok (failedResult "connection refused")) isoNow

/-- Worker execution in which the registration promise rejects. -/
def c3Run : HandlerOutput :=
  BlockchainWorker.processRegisterCertificate [("cert-A", certA)] [] "cert-A" 2
    (fun _ => .error "boom") isoNow

/-- A job whose certificate id is absent from the store, processed under the
`blockchainRegistration` queue's configured attempt cap. -/
def c4Run : JobRunResult :=
  bullProcess blockchainRegistrationDef.attempts [] [] "missing-cert" 0
    (fun _ => .error "unused") isoNow

/-- The shared cache key of the concurrent-duplicate scenario. -/
def c5Key : IdemKey :=
  { userId := "user-1", method := "POST", path := "/api/v1/certificates"
    clientKey := "abcd-1234" }

/-- Two concurrent requests with the same key, interleaved so that both
`GET`s precede both `SETEX`s, then each runs to completion. -/
def c5RaceRun : ConcState :=
  runSchedule c5Key 1000 201 "created" [0, 1, 0, 1, 0, 1]
    { store := [], threads := [.start, .start] }

/-- The cache key of the completed-replay scenario. -/
def c6Key : IdemKey :=
  { userId := "user-2", method := "POST", path := "/api/v1/organizations"
    clientKey := "key-12345" }

/-- A store holding a completed record for `c6Key`. -/
def c6Store : IdemStore := [(c6Key, .completed 200 "ok-body" 10)]

/-- A queue-creation environment in which only the blockchain queue comes
up. -/
def readyOnlyBlockchain : String → Bool :=
  fun k => k == "blockchainRegistration"

/-- The manager state after an `init` in which only the blockchain queue
initialized. -/
def initializedOne : QueueManagerState :=
  { queues := [("blockchainRegistration", blockchainRegistrationDef)]
    isConnected := true
    initialized := true }

/-! Theorems. -/

/-- C2: the worker persists `blockchain_status = 'confirmed'` and enqueues
the email-notification job even when the registration result is the
breaker's `queued` fallback (synthetic `pending_` hash) or the `failed`
object (hash `null`): the success branch never inspects the result's
`status`.  This refutes the claim that those outcomes leave the record
unconfirmed and enqueue nothing. -/
theorem c2_worker_confirms_degraded_results :
    (fallbackResult certA 1234).status = "queued"
    ∧ (c2RunQueued.store.lookup "cert-A").map Certificate.blockchain_status
        = some (some "confirmed")
    ∧ (c2RunQueued.store.lookup "cert-A").map Certificate.tx_hash
        = some (some "pending_1234_cert-A")
    ∧ c2RunQueued.emails.length = 1
    ∧ (failedResult "connection refused").status = "failed"
    ∧ (c2RunFailed.store.lookup "cert-A").map Certificate.blockchain_status
        = some (some "confirmed")
    ∧ (c2RunFailed.store.lookup "cert-A").map Certificate.tx_hash = some none
    ∧ c2RunFailed.emails.length = 1 := by
  decide

/-- C3: when the certificate loads but the registration call rejects, the
`catch` block raises `ReferenceError` on the try-scoped `cert` binding: no
`blockchain_status = 'failed'` row is written and the error that propagates
is not the original one. -/
theorem c3_catch_block_reference_error :
    c3Run.result = .error (.referenceError "cert")
    ∧ c3Run.result ≠ .error (.thrown "boom")
    ∧ c3Run.store = [("cert-A", certA)]
    ∧ (c3Run.store.lookup "cert-A").map Certificate.blockchain_status
        ≠ some (some "failed") := by
  decide

/-- C4 counterexample: a job naming a missing certificate is not failed
terminally — the handler's rejection is retried like any failure, the
handler re-executing under the `blockchainRegistration` retry policy until
its 3 configured attempts are consumed. -/
theorem c4_missing_certificate_is_retried :
    blockchainRegistrationDef.attempts = 3
    ∧ c4Run.finalState = "failed"
    ∧ c4Run.executions = 3
    ∧ c4Run.executions ≠ 1 := by
  decide

/-- C5 counterexample: two concurrent mutating requests with the same
user, method, path and (valid) idempotency key, interleaved so both Redis
`GET`s happen before either `SETEX`, both execute the route handler — the
guard's lookup-then-mark is not atomic, so "exactly one executes" fails. -/
theorem c5_concurrent_duplicates_both_execute :
    isMutatingMethod c5Key.method = true
    ∧ validIdempotencyKey c5Key.clientKey = true
    ∧ executedCount c5RaceRun = 2
    ∧ executedCount c5RaceRun ≠ 1 := by
  decide

/-- C1: in one process, after `registerCertificate(certA)` a later
`registerCertificate(certB)` fires the breaker action cached at the first
call: the remark payload submitted by the second invocation carries
`certA.id` (`cert-A`), not `certB.id` (`cert-B`).  This refutes the claim
that the second invocation submits its own certificate data. -/
theorem c1_second_call_submits_first_certificate :
    (registerTwice certA certB false (.success "0xabc" (some 5)) 1000 2000).2.submitted
        = some (buildRemarkPayload certA 2000)
      ∧ (registerTwice certA certB false (.success "0xabc" (some 5)) 1000 2000).2.actionCert
        = some certA
      ∧ (buildRemarkPayload certA 2000).id = "cert-A"
      ∧ certB.id = "cert-B"
      ∧ ("cert-A" : String) ≠ "cert-B" := by
  decide

/-- C9: `registerCertificate` is a total function into structured result
objects — no exception reaches the caller.  The returned `status` is one of
`confirmed`, `queued`, `failed`; when the circuit is open the dependency is
not invoked and the current call's fallback result is returned; when the
circuit is closed and the protected call succeeds the `confirmed` result is
returned. -/
theorem c9_register_never_throws (st : CBFactory Certificate) (c : Certificate)
    (circuitOpen : Bool) (chain : ChainOutcome) (now : Nat) :
    ((PaseoService.registerCertificate st c circuitOpen chain now).result.status = "confirmed"
      ∨ (PaseoService.registerCertificate st c circuitOpen chain now).result.status = "queued"
      ∨ (PaseoService.registerCertificate st c circuitOpen chain now).result.status = "failed")
    ∧ (circuitOpen = true →
        (PaseoService.registerCertificate st c circuitOpen chain now).actionCert = none
        ∧ (PaseoService.registerCertificate st c circuitOpen chain now).result
            = fallbackResult c now)
    ∧ (∀ txHex bn, circuitOpen = false → chain = .success txHex bn →
        (PaseoService.registerCertificate st c circuitOpen chain now).result
          = internalSuccessResult txHex bn) := by
  cases circuitOpen <;> cases chain <;>
    simp [PaseoService.registerCertificate, fireBreaker, fallbackResult,
      internalSuccessResult]

/-- Witness for C9 at concrete inputs: with the circuit open the fallback is
served without invoking the dependency, and with the circuit closed a
successful submission yields the `confirmed` result. -/
theorem c9_register_never_throws_witness :
    ((PaseoService.registerCertificate (CBFactory.empty Certificate) certA true
        (.failure "down") 7).actionCert = none
      ∧ (PaseoService.registerCertificate (CBFactory.empty Certificate) certA true
          (.failure "down") 7).result = fallbackResult certA 7)
    ∧ (PaseoService.registerCertificate (CBFactory.empty Certificate) certA false
        (.success "0xabc" (some 5)) 7).result = internalSuccessResult "0xabc" (some 5) :=
  ⟨(c9_register_never_throws (CBFactory.empty Certificate) certA true
      (.failure "down") 7).2.1 rfl,
    (c9_register_never_throws (CBFactory.empty Certificate) certA false
      (.success "0xabc" (some 5)) 7).2.2 "0xabc" (some 5) rfl rfl⟩

/-- C8: when the loaded certificate already carries a `tx_hash` the handler
returns the `already_registered` result with that hash, does not invoke the
blockchain dependency, and leaves the certificate table and email queue
untouched. -/
theorem c8_already_registered_short_circuit (store : CertStore)
    (emails : List EmailJob) (certificateId : String) (cert : Certificate)
    (txh : String) (hl : store.lookup certificateId = some cert)
    (hh : cert.tx_hash = some txh) (retryCount : Nat)
    (register : Certificate → Except String BCResult) (nowIso : String) :
    BlockchainWorker.processRegisterCertificate store emails certificateId
        retryCount register nowIso
      = { result := .ok (.alreadyRegistered txh), store := store
          emails := emails, registerCalled := false } := by
  simp [BlockchainWorker.processRegisterCertificate, hl, hh]

/-- Witness for C8: a store whose only certificate already has hash
`0xdead`. -/
theorem c8_already_registered_short_circuit_witness :
    BlockchainWorker.processRegisterCertificate [("cert-B", certRegistered)] []
        "cert-B" 0 (fun _ => .error "unused") isoNow
      = { result := .ok (.alreadyRegistered "0xdead")
          store := [("cert-B", certRegistered)]
          emails := [], registerCalled := false } :=
  c8_already_registered_short_circuit [("cert-B", certRegistered)] [] "cert-B"
    certRegistered "0xdead" rfl rfl 0 (fun _ => .error "unused") isoNow

/-- Helper: the handler's output on a job whose certificate id is absent
from the store. -/
theorem processRegisterCertificate_missing (store : CertStore)
    (emails : List EmailJob) (certificateId : String) (retryCount : Nat)
    (register : Certificate → Except String BCResult) (nowIso : String)
    (h : store.lookup certificateId = none) :
    BlockchainWorker.processRegisterCertificate store emails certificateId
        retryCount register nowIso
      = { result := .error (.referenceError "cert"), store := store
          emails := emails, registerCalled := false } := by
  simp [BlockchainWorker.processRegisterCertificate, h]

/-- Helper: the Bull loop on a missing certificate fails every attempt and
burns all remaining attempts. -/
theorem bullRun_missing (store : CertStore) (certificateId : String)
    (h : store.lookup certificateId = none) :
    ∀ (n made : Nat) (emails : List EmailJob) (retryCount : Nat)
      (register : Certificate → Except String BCResult) (nowIso : String),
      bullRun n made store emails certificateId retryCount register nowIso
        = { finalState := "failed", attemptsMade := made + n
            executions := made + n, store := store, emails := emails } := by
  intro n
  induction n with
  | zero => intro made emails retryCount register nowIso; simp [bullRun]
  | succ k ih =>
      intro made emails retryCount register nowIso
      have hstep := processRegisterCertificate_missing store emails certificateId
        retryCount register nowIso h
      simp only [bullRun, hstep]
      rw [ih (made + 1) emails retryCount register nowIso]
      have harith : made + 1 + k = made + (k + 1) := by omega
      rw [harith]

/-- C4 (amended): a job referencing a certificate id absent from the store
is not failed terminally; its rejection is handled by the queue's ordinary
retry policy, the handler re-executing until the `blockchainRegistration`
attempt cap (3) is exhausted, after which the job sits in the failed set
with `attemptsMade = 3`. -/
theorem c4_amended_missing_certificate_retried (store : CertStore)
    (certificateId : String) (emails : List EmailJob) (retryCount : Nat)
    (register : Certificate → Except String BCResult) (nowIso : String)
    (h : store.lookup certificateId = none) :
    bullProcess blockchainRegistrationDef.attempts store emails certificateId
        retryCount register nowIso
      = { finalState := "failed", attemptsMade := 3, executions := 3
          store := store, emails := emails } := by
  have hb := bullRun_missing store certificateId h
    blockchainRegistrationDef.attempts 0 emails retryCount register nowIso
  simpa [bullProcess, blockchainRegistrationDef] using hb

/-- Witness for C4's amended claim on an empty store. -/
theorem c4_amended_missing_certificate_retried_witness :
    bullProcess blockchainRegistrationDef.attempts [] [] "missing-cert" 0
        (fun _ => .error "unused") isoNow
      = { finalState := "failed", attemptsMade := 3, executions := 3
          store := [], emails := [] } :=
  c4_amended_missing_certificate_retried [] "missing-cert" [] 0
    (fun _ => .error "unused") isoNow rfl

/-- Helper: accumulating the elements that pass a test is filtering. -/
theorem foldl_append_filter {α : Type} (p : α → Bool) :
    ∀ (l acc : List α),
      l.foldl (fun a x => if p x then a ++ [x] else a) acc = acc ++ l.filter p := by
  intro l
  induction l with
  | nil => intro acc; simp
  | cons hd tl ih =>
      intro acc
      by_cases h : p hd <;> simp [List.filter_cons, h, ih]

/-- C10: `init()` is a no-op on an already-initialized manager; from the
constructor state it throws exactly when every configured queue fails to
initialize, and when at least one succeeds it registers precisely the
successful queues and sets `initialized`. -/
theorem c10_init_partial_failure (st : QueueManagerState)
    (queueReady : String → Bool) :
    (st.initialized = true → QueueManager.init st queueReady = .ok st)
    ∧ (st.initialized = false → st.queues = [] →
        (((∃ e, QueueManager.init st queueReady = .error e) ↔
            ∀ kd ∈ queueDefinitions, queueReady kd.1 = false)
        ∧ ((∃ kd ∈ queueDefinitions, queueReady kd.1 = true) →
            QueueManager.init st queueReady
              = .ok { queues := queueDefinitions.filter fun kd => queueReady kd.1
                      isConnected := true
                      initialized := true }))) := by
  constructor
  · intro h
    simp [QueueManager.init, h]
  · intro h hq
    have hfold := foldl_append_filter (fun kd => queueReady kd.1) queueDefinitions
      st.queues
    rw [hq] at hfold
    simp only [List.nil_append] at hfold
    constructor
    · by_cases hp : 0 < (queueDefinitions.filter fun kd => queueReady kd.1).length
      · have hok : QueueManager.init st queueReady
            = .ok { queues := queueDefinitions.filter fun kd => queueReady kd.1
                    isConnected := true, initialized := true } := by
          simp [QueueManager.init, h, hq, hfold, hp]
        rw [hok]
        simp only [iff_iff_implies_and_implies]
        constructor
        · intro he
          rcases he with ⟨e, he⟩
          exact absurd he (by simp)
        · intro hall
          exfalso
          rcases List.exists_mem_of_length_pos hp with ⟨kd, hkd⟩
          rcases List.mem_filter.mp hkd with ⟨hmem, hpass⟩
          have := hall kd hmem
          rw [this] at hpass
          exact Bool.noConfusion hpass
      · have hnil : (queueDefinitions.filter fun kd => queueReady kd.1) = [] := by
          rcases List.eq_nil_or_concat (queueDefinitions.filter fun kd => queueReady kd.1)
            with hn | ⟨l, a, hl⟩
          · exact hn
          · exfalso; apply hp; rw [hl]; simp
        have herr : QueueManager.init st queueReady
            = .error "Failed to initialize any queues - check Redis connection" := by
          simp [QueueManager.init, h, hq, hfold, hnil]
        rw [herr]
        constructor
        · intro _
          intro kd hmem
          by_contra hcon
          have hpass : queueReady kd.1 = true := by
            cases hh : queueReady kd.1
            · exact absurd hh hcon
            · rfl
          have : kd ∈ (queueDefinitions.filter fun kd => queueReady kd.1) :=
            List.mem_filter.mpr ⟨hmem, hpass⟩
          rw [hnil] at this
          exact absurd this (List.not_mem_nil kd)
        · intro _
          exact ⟨"Failed to initialize any queues - check Redis connection", rfl⟩
    · rintro ⟨kd, hmem, hpass⟩
      have hp : 0 < (queueDefinitions.filter fun kd => queueReady kd.1).length := by
        have : kd ∈ (queueDefinitions.filter fun kd => queueReady kd.1) :=
          List.mem_filter.mpr ⟨hmem, hpass⟩
        exact List.length_pos_of_mem this
      simp [QueueManager.init, h, hq, hfold, hp]

/-- Witness for C10: with only the blockchain queue able to come up, a fresh
manager initializes with exactly that queue, and a second `init` is a
no-op. -/
theorem c10_init_partial_failure_witness :
    QueueManager.init QueueManagerState.new readyOnlyBlockchain = .ok initializedOne
    ∧ QueueManager.init initializedOne readyOnlyBlockchain = .ok initializedOne := by
  constructor
  · have h := ((c10_init_partial_failure QueueManagerState.new readyOnlyBlockchain).2
      rfl rfl).2
      ⟨("blockchainRegistration", blockchainRegistrationDef), by decide, by decide⟩
    rw [h]
    decide
  · exact (c10_init_partial_failure initializedOne readyOnlyBlockchain).1 rfl

/-- C7: the full case analysis of `calculateQueueHealth`: with no processed
jobs the answer is `overloaded`/`idle` on the waiting threshold 100;
otherwise the failure rate `failed/(failed+completed)` classifies `critical`
(rate above 1/2), `warning` (rate in (1/5, 1/2]), `busy` (rate at most 1/5,
waiting above 1000) or `healthy`; and the two pinned examples: 6 failed / 4
completed is `critical`, and 0/0 with 150 waiting is `overloaded`. -/
theorem c7_queue_health_classification (f c w : Nat) :
    ((c = 0 ∧ f = 0) →
      QueueManager.calculateQueueHealth f c w
        = if w > 100 then "overloaded" else "idle")
    ∧ (¬(c = 0 ∧ f = 0) →
        (((f : ℚ) / ((f : ℚ) + (c : ℚ)) > 1 / 2 →
            QueueManager.calculateQueueHealth f c w = "critical")
        ∧ ((1 / 5 < (f : ℚ) / ((f : ℚ) + (c : ℚ))
              ∧ (f : ℚ) / ((f : ℚ) + (c : ℚ)) ≤ 1 / 2) →
            QueueManager.calculateQueueHealth f c w = "warning")
        ∧ (((f : ℚ) / ((f : ℚ) + (c : ℚ)) ≤ 1 / 5 ∧ w > 1000) →
            QueueManager.calculateQueueHealth f c w = "busy")
        ∧ (((f : ℚ) / ((f : ℚ) + (c : ℚ)) ≤ 1 / 5 ∧ ¬(w > 1000)) →
            QueueManager.calculateQueueHealth f c w = "healthy")))
    ∧ QueueManager.calculateQueueHealth 6 4 w = "critical"
    ∧ QueueManager.calculateQueueHealth 0 0 150 = "overloaded" := by
  refine ⟨?_, ?_, ?_, ?_⟩
  · intro h
    rw [QueueManager.calculateQueueHealth, if_pos h]
  · intro h
    rw [QueueManager.calculateQueueHealth, if_neg h]
    refine ⟨?_, ?_, ?_, ?_⟩
    · intro hc
      rw [if_pos hc]
    · intro hc
      rw [if_neg (not_lt.mpr hc.2), if_pos hc.1]
    · intro hc
      rw [if_neg (not_lt.mpr (le_trans hc.1 (by norm_num))),
        if_neg (not_lt.mpr hc.1), if_pos hc.2]
    · intro hc
      rw [if_neg (not_lt.mpr (le_trans hc.1 (by norm_num))),
        if_neg (not_lt.mpr hc.1), if_neg hc.2]
  · rw [QueueManager.calculateQueueHealth, if_neg (by simp)]
    norm_num
  · rw [QueueManager.calculateQueueHealth, if_pos ⟨rfl, rfl⟩]
    rfl

/-- Witness for C7 across the four rate/waiting branches and the idle
branch. -/
theorem c7_queue_health_classification_witness :
    QueueManager.calculateQueueHealth 0 0 50 = "idle"
    ∧ QueueManager.calculateQueueHealth 3 7 0 = "warning"
    ∧ QueueManager.calculateQueueHealth 1 9 2000 = "busy"
    ∧ QueueManager.calculateQueueHealth 1 9 5 = "healthy" := by
  refine ⟨?_, ?_, ?_, ?_⟩
  · have h := (c7_queue_health_classification 0 0 50).1 ⟨rfl, rfl⟩
    simpa using h
  · exact ((c7_queue_health_classification 3 7 0).2.1 (by simp)).2.1
      ⟨by norm_num, by norm_num⟩
  · exact ((c7_queue_health_classification 1 9 2000).2.1 (by simp)).2.2.1
      ⟨by norm_num, by norm_num⟩
  · exact ((c7_queue_health_classification 1 9 5).2.1 (by simp)).2.2.2
      ⟨by norm_num, by norm_num⟩

/-- C6: a mutating request whose composite key holds a live completed record
is answered from the store: the middleware replies with the stored status
code and body, sets `X-Idempotent-Replayed: true`, leaves the store as it
is, and never reaches `next()` (so the handler does not run again). -/
theorem c6_completed_replay (store : IdemStore) (now : Nat)
    (userId method path key : String) (sc : Nat) (body : String) (ts : Nat)
    (hm : isMutatingMethod method = true)
    (hk : validIdempotencyKey key = true)
    (hs : storeGet store
        { userId := userId, method := method, path := path, clientKey := key }
      = some (.completed sc body ts)) :
    IdempotencyMiddleware.check store now userId method path (some key)
      = (.replay sc body (replayHeaders key), store)
    ∧ ("X-Idempotent-Replayed", "true") ∈ replayHeaders key := by
  constructor
  · simp [IdempotencyMiddleware.check, hm, hk, hs]
  · simp [replayHeaders]

/-- Witness for C6: a store holding a completed 200/`ok-body` record for the
key replays it verbatim. -/
theorem c6_completed_replay_witness :
    IdempotencyMiddleware.check c6Store 999 "user-2" "POST"
        "/api/v1/organizations" (some "key-12345")
      = (.replay 200 "ok-body" (replayHeaders "key-12345"), c6Store)
    ∧ ("X-Idempotent-Replayed", "true") ∈ replayHeaders "key-12345" :=
  c6_completed_replay c6Store 999 "user-2" "POST" "/api/v1/organizations"
    "key-12345" 200 "ok-body" 10 (by decide) (by decide) (by decide)

/-- Helper: a freshly `SETEX`-ed record is what `GET` returns. -/
theorem storeGet_storeSet_self (s : IdemStore) (k : IdemKey) (r : IdemRecord) :
    storeGet (storeSet s k r) k = some r := by
  simp [storeSet, storeGet]

/-- Helper: once the store holds a completed record for the key, any number
of further serialized requests all replay it and never run the handler. -/
theorem runSerial_completed (userId method path key : String)
    (now handlerStatus : Nat) (handlerBody : String) (sc : Nat) (body : String)
    (ts : Nat) (hm : isMutatingMethod method = true)
    (hk : validIdempotencyKey key = true) :
    ∀ (n : Nat) (store : IdemStore),
      storeGet store
          { userId := userId, method := method, path := path, clientKey := key }
        = some (.completed sc body ts) →
      runSerial userId method path key now handlerStatus handlerBody n store
        = { store := store
            outcomes := List.replicate n (.replay sc body (replayHeaders key))
            handlerRuns := 0 } := by
  intro n
  induction n with
  | zero => intro store hs; simp [runSerial]
  | succ m ih =>
      intro store hs
      have hc : IdempotencyMiddleware.check store now userId method path (some key)
          = (.replay sc body (replayHeaders key), store) := by
        simp [IdempotencyMiddleware.check, hm, hk, hs]
      simp [runSerial, hc, ih store hs, List.replicate_succ]

/-- C5 (amended): when the requests are processed serially — each request's
lookup, marker write, handler run and completion write finishing before the
next request's lookup — and the handler responds below 500, exactly one of
the `n + 1` identical requests executes the handler (the first), and every
other receives the replayed stored response.  Under true concurrency the
guard's `GET`-then-`SETEX` is not atomic, so this uniqueness does not hold
(see the interleaving refutation). -/
theorem c5_amended_serialized_exactly_one (store : IdemStore)
    (userId method path key : String) (now handlerStatus : Nat)
    (handlerBody : String) (n : Nat)
    (hm : isMutatingMethod method = true)
    (hk : validIdempotencyKey key = true)
    (habs : storeGet store
        { userId := userId, method := method, path := path, clientKey := key }
      = none)
    (hsc : handlerStatus < 500) :
    (runSerial userId method path key now handlerStatus handlerBody (n + 1)
        store).handlerRuns = 1
    ∧ (runSerial userId method path key now handlerStatus handlerBody (n + 1)
          store).outcomes
      = .proceed true
          :: List.replicate n (.replay handlerStatus handlerBody (replayHeaders key)) := by
  have hc : IdempotencyMiddleware.check store now userId method path (some key)
      = (.proceed true,
          storeSet store
            { userId := userId, method := method, path := path, clientKey := key }
            (.processing now)) := by
    simp [IdempotencyMiddleware.check, hm, hk, habs]
  have hrc : IdempotencyMiddleware.recordCompletion
      (storeSet store
        { userId := userId, method := method, path := path, clientKey := key }
        (.processing now))
      { userId := userId, method := method, path := path, clientKey := key }
      now handlerStatus handlerBody
      = storeSet
          (storeSet store
            { userId := userId, method := method, path := path, clientKey := key }
            (.processing now))
          { userId := userId, method := method, path := path, clientKey := key }
          (.completed handlerStatus handlerBody now) := by
    simp [IdempotencyMiddleware.recordCompletion, hsc]
  have hget := storeGet_storeSet_self
    (storeSet store
      { userId := userId, method := method, path := path, clientKey := key }
      (.processing now))
    { userId := userId, method := method, path := path, clientKey := key }
    (.completed handlerStatus handlerBody now)
  have hrest := runSerial_completed userId method path key now handlerStatus
    handlerBody handlerStatus handlerBody now hm hk n _ hget
  constructor
  · simp [runSerial, hc, hrc, hrest]
  · simp [runSerial, hc, hrc, hrest]

/-- Witness for C5's amended claim: three serialized identical requests,
starting from an empty store — one handler run, two replays. -/
theorem c5_amended_serialized_exactly_one_witness :
    (runSerial "user-1" "POST" "/api/v1/certificates" "abcd-1234" 1000 201
        "created" (2 + 1) []).handlerRuns = 1
    ∧ (runSerial "user-1" "POST" "/api/v1/certificates" "abcd-1234" 1000 201
          "created" (2 + 1) []).outcomes
      = .proceed true
          :: List.replicate 2 (.replay 201 "created" (replayHeaders "abcd-1234")) :=
  c5_amended_serialized_exactly_one [] "user-1" "POST" "/api/v1/certificates"
    "abcd-1234" 1000 201 "created" 2 (by decide) (by decide) (by decide) (by decide)

end Verichain
